import Mathlib

/-!
Shallow embedding of `src/scripts/generate_wakatime_calendar.py`.

Modelling conventions, fixed once for the whole file:

* A Python `datetime.date` is represented by its proleptic Gregorian
  ordinal (`date.toordinal()`), an `Int`.  Ordinal 1 is 0001-01-01,
  which is a Monday, so `weekday d = (d - 1) % 7` matches Python
  `date.weekday()` (0 = Monday .. 6 = Sunday), and adding a
  `timedelta(days = k)` is adding `k`.
* Python `//` and `%` on `int` are floor division and floor modulus;
  for a positive divisor these agree with `Int.ediv` / `Int.emod`,
  which are what `/` and `%` denote on `Int` here.
* Seconds totals are `Int` (the script compares them with `<` and
  `<=` and floor-divides them; all claims speak of integers).
* The `totals` dict built in `main` maps an ISO date string to
  seconds.  `date.isoformat()` is a bijection between dates and the
  strings used as keys, so the dict is modelled as an association
  list keyed directly by the ordinal.  A Python dict comprehension
  lets later duplicates overwrite earlier ones, while `List.lookup`
  returns the first hit, so `totalsOf` reverses the list first.
* Network and file I/O are modelled by an `attempt` oracle mapping
  the attempt number (1-based, as in the `for i in range(1, ...)`
  loop) to the outcome of `urlopen` plus JSON decoding.
-/

/-- `ZERO_COLOR`: neutral color for days with no coding time (line 15). -/
def ZERO_COLOR : String := "#fafafa"

/-- `ZERO_LABEL` (line 16). -/
def ZERO_LABEL : String := "0h"

/-- `LEGEND_LABELS` (line 82). -/
def LEGEND_LABELS : List String := ["< 1h", "1–3h", "4–8h", "9–10h", "11–12h", "≥ 13h"]

/-- `bucket6` (lines 68-79): maps a second count to a severity level 0-5. -/
def bucket6 (seconds : Int) : Nat :=
  if seconds < 3600 then 0
  else if seconds < 4 * 3600 then 1
  else if seconds < 9 * 3600 then 2
  else if seconds < 11 * 3600 then 3
  else if seconds < 13 * 3600 then 4
  else 5

/-- `build_palette6` (lines 51-62): 6 shades from lightest to darkest. -/
def build_palette6 (name : String) : List String :=
  if name = "blue6" then ["#eef5ff", "#d6e7ff", "#b8d5ff", "#8bb8ff", "#3f8cff", "#0b61ff"]
  else if name = "orange6" then ["#fff3e8", "#ffe0c7", "#ffc191", "#ff9b57", "#ef6c00", "#b34f00"]
  else if name = "purple6" then ["#f4efff", "#e1d5ff", "#c2a8ff", "#9b78ff", "#6a38c9", "#4d28a1"]
  else if name = "gray6" then ["#eeeeee", "#dddddd", "#c9c9c9", "#b0b0b0", "#8b8b8b", "#616161"]
  else ["#f0f5ee", "#d7eec6", "#b2e08b", "#7bc96f", "#2ea043", "#196127"]

/-- The five palette names accepted by `--palette` (line 34). -/
def paletteNames : List String := ["green6", "blue6", "orange6", "purple6", "gray6"]

/-- Python `date.weekday()` on an ordinal: 0 = Monday .. 6 = Sunday. -/
def weekday (d : Int) : Int := (d - 1) % 7

/-- Gregorian leap year test, as in `datetime`. -/
def isLeap (y : Int) : Bool := (y % 4 == 0 && y % 100 != 0) || y % 400 == 0

/-- Month lengths January..December for a (non-)leap year. -/
def monthLengths (leap : Bool) : List Int :=
  [31, if leap then 29 else 28, 31, 30, 31, 30, 31, 31, 30, 31, 30, 31]

/-- Walk the month-length table: given days-into-year `n` (0-based),
return the month (1-based) and day-of-month (1-based). -/
def findMonthDay : List Int → Int → Int → Int × Int
  | [], m, n => (m, n + 1)
  | len :: rest, m, n => if n < len then (m, n + 1) else findMonthDay rest (m + 1) (n - len)

/-- Proleptic Gregorian ordinal to (year, month, day), following the
`datetime` module conversion (`_ord2ymd`). -/
def ord2ymd (nn : Int) : Int × Int × Int :=
  let n0 := nn - 1
  let n400 := n0 / 146097
  let r400 := n0 % 146097
  let n100 := r400 / 36524
  let r100 := r400 % 36524
  let n4 := r100 / 1461
  let r4 := r100 % 1461
  let n1 := r4 / 365
  let rest := r4 % 365
  let year := n400 * 400 + n100 * 100 + n4 * 4 + n1 + 1
  if n1 == 4 || n100 == 4 then (year - 1, 12, 31)
  else
    let md := findMonthDay (monthLengths (isLeap year)) 1 rest
    (year, md.1, md.2)

/-- Days in all years strictly before year `y` (`datetime._days_before_year`). -/
def days_before_year (y : Int) : Int :=
  let py := y - 1
  py * 365 + py / 4 - py / 100 + py / 400

/-- Days in year `y` strictly before month `m`. -/
def days_before_month (y m : Int) : Int :=
  ((monthLengths (isLeap y)).take (m - 1).toNat).sum

/-- (year, month, day) to proleptic Gregorian ordinal (`date.toordinal`). -/
def ymd2ord (y m d : Int) : Int := days_before_year y + days_before_month y m + d

/-- Zero-pad a (non-negative) number to width 2, as Python format `{n:02d}`. -/
def pad2i (n : Int) : String := if n < 10 then "0" ++ toString n else toString n

/-- Zero-pad a year to width 4, as in `date.isoformat()`. -/
def pad4 (n : Int) : String :=
  if n < 10 then "000" ++ toString n
  else if n < 100 then "00" ++ toString n
  else if n < 1000 then "0" ++ toString n
  else toString n

/-- `date.isoformat()` on an ordinal: "YYYY-MM-DD". -/
def ordinalToIso (d : Int) : String :=
  let ymd := ord2ymd d
  pad4 ymd.1 ++ "-" ++ pad2i ymd.2.1 ++ "-" ++ pad2i ymd.2.2

/-- `compute_period` (lines 37-45).  `today` is the current ordinal,
`year` models `args.year` (`none` when the flag is absent), `lastDays`
models `args.last_days`.  Python tests `if args.year:`, which is
falsy both for `None` and for `0`. -/
def compute_period (today : Int) (year : Option Int) (lastDays : Int) : Int × Int :=
  if (match year with | some y => y != 0 | none => false) then
    let y := year.getD 0
    (ymd2ord y 1 1, ymd2ord y 12 31)
  else
    (today - (max 1 lastDays - 1), today)

/-- An exception caught by the `except (error.HTTPError, error.URLError)`
clause in `fetch_summaries` (line 104).  `code` models
`getattr(e, "code", None)` (an `HTTPError` has a status code, a bare
`URLError` does not); `msg` models `str(e)`. -/
structure HErr where
  code : Option Int
  msg : String
deriving DecidableEq

/-- `needle` occurs as a contiguous subsequence of `hay`. -/
def containsSeq : List Char → List Char → Bool
  | needle, [] => needle.isEmpty
  | needle, c :: rest => needle.isPrefixOf (c :: rest) || containsSeq needle rest

/-- Whether `str(e)` contains the substring "Remote end closed"
(line 107, the Python `in` operator), checked on the character lists. -/
def containsRemoteEndClosed (s : String) : Bool :=
  containsSeq "Remote end closed".data s.data

/-- The retry condition of line 107:
`status in (429, 500, 502, 503, 504) or "Remote end closed" in str(e)`. -/
def isTransient (e : HErr) : Bool :=
  (match e.code with
   | some c => c == 429 || c == 500 || c == 502 || c == 503 || c == 504
   | none => false) || containsRemoteEndClosed e.msg

/-- One element of the JSON `data` array: `d["range"]["date"]` (as an
ordinal, see the header) and `d["grand_total"]["total_seconds"]`. -/
structure SummaryRec where
  date : Int
  total_seconds : Int
deriving DecidableEq

/-- Outcome of one loop iteration of `fetch_summaries` (lines 101-103):
`urlopen` plus `json.loads(...)["data"]`.  `ok` is a successful request
with a well-formed body, already projected to its `data` array;
`jsonErr` is a successful request whose body `json.loads` rejects
(that exception is not an `HTTPError`/`URLError`, so the `except`
clause does not catch it); `httpErr` is an exception the `except`
clause catches. -/
inductive Outcome where
  | ok (data : List SummaryRec)
  | jsonErr (msg : String)
  | httpErr (e : HErr)
deriving DecidableEq

/-- How `fetch_summaries` terminates. -/
inductive FetchResult where
  | ok (data : List SummaryRec)
  /-- An `HTTPError`/`URLError` propagates (line 110 `raise` or line 111
  `raise last_err` with `last_err` set). -/
  | raisedHttp (e : HErr)
  /-- A `json.JSONDecodeError` propagates uncaught out of the loop. -/
  | raisedJson (msg : String)
  /-- Line 111 executes `raise last_err` with `last_err = None`: Python
  raises `TypeError: exceptions must derive from BaseException`. -/
  | raisedNoneTypeError
  /-- The `RuntimeError` of line 90: missing/malformed API key, raised
  before the request object is even built. -/
  | raisedKeyError
deriving DecidableEq

/-- A run of `fetch_summaries`: its result, how many attempts (calls of
`urlopen`) were made, and the arguments of the `time.sleep(2 * i)`
calls, in order. -/
structure FetchTrace where
  result : FetchResult
  attempts : Nat
  sleeps : List Nat
deriving DecidableEq

/-- The retry loop of lines 99-111.  `i` is the 1-based attempt number,
`rem` the number of loop iterations left, `lastE` the current value of
`last_err`. -/
def fetchGo (attempt : Nat → Outcome) (i rem : Nat) (lastE : Option HErr) : FetchTrace :=
  match rem with
  | 0 =>
    { result := match lastE with
                | some e => .raisedHttp e
                | none => .raisedNoneTypeError,
      attempts := 0, sleeps := [] }
  | rem' + 1 =>
    match attempt i with
    | .ok d => { result := .ok d, attempts := 1, sleeps := [] }
    | .jsonErr m => { result := .raisedJson m, attempts := 1, sleeps := [] }
    | .httpErr e =>
      if isTransient e then
        let t := fetchGo attempt (i + 1) rem' (some e)
        { result := t.result, attempts := t.attempts + 1, sleeps := 2 * i :: t.sleeps }
      else
        { result := .raisedHttp e, attempts := 1, sleeps := [] }

/-- Python truthiness-plus-prefix check of lines 89 and 222:
`not api_key or not api_key.startswith("waka_")` fails the key. -/
def validKey : Option String → Bool
  | none => false
  | some s => (s.data != []) && "waka_".data.isPrefixOf s.data

/-- `fetch_summaries` (lines 88-111), with the network abstracted by the
`attempt` oracle.  `range(1, max_retries + 1)` runs
`max 0 max_retries = max_retries.toNat` iterations. -/
def fetch_summaries (apiKey : Option String) (attempt : Nat → Outcome)
    (maxRetries : Int) : FetchTrace :=
  if validKey apiKey then fetchGo attempt 1 maxRetries.toNat none
  else { result := .raisedKeyError, attempts := 0, sleeps := [] }

/-- `sx.escape` with default arguments: replace `&` with `&amp;`,
`<` with `&lt;` and `>` with `&gt;` (performed character-wise, which
is what `xml.sax.saxutils.escape` computes). -/
def xmlEscape (s : String) : String :=
  ⟨s.data.flatMap (fun c =>
    if c = '&' then "&amp;".data
    else if c = '<' then "&lt;".data
    else if c = '>' then "&gt;".data
    else [c])⟩

/-- `start_monday` (line 121): move `start` back to its Monday. -/
def start_monday (start : Int) : Int := start - weekday start

/-- `end_sunday` (line 122): move `end` forward to its Sunday. -/
def end_sunday (stop : Int) : Int := stop + (6 - weekday stop)

/-- `days` (line 133): size of the expanded range, inclusive. -/
def gridDays (start stop : Int) : Int := end_sunday stop - start_monday start + 1

/-- `weeks` (line 134): `(days + 6) // 7`. -/
def weeksOf (start stop : Int) : Int := (gridDays start stop + 6) / 7

/-- `totals.get(date_str, 0)` (line 167), on the association list. -/
def lookupTotal (totals : List (Int × Int)) (d : Int) : Int :=
  match totals.lookup d with
  | some s => s
  | none => 0

/-- The fill of one cell (lines 168-172): the zero color for
`s <= 0`, otherwise `palette[bucket6(s)]`. -/
def cellColor (palette : List String) (s : Int) : String :=
  if s ≤ 0 then ZERO_COLOR else palette.getD (bucket6 s) ""

/-- The duration part of the tooltip of line 178:
`f"{hours}h{mins:02d}"` with `hours = s // 3600` and
`mins = (s % 3600) // 60`. -/
def durationStr (s : Int) : String :=
  toString (s / 3600) ++ "h" ++ pad2i (s % 3600 / 60)

/-- One `<rect>` of the grid (lines 163-183): its date, pixel
position, fill color and `<title>` tooltip text. -/
structure Cell where
  date : Int
  x : Int
  y : Int
  fill : String
  tooltip : String
deriving DecidableEq

/-- The grid-building double loop of lines 162-183.  Layout constants
from lines 125-131: `left = 48`, `cell = 10`, `gap = 2`,
`top = 16 + 14 + 14 = 44`.  The cursor starts at `start_monday` and
advances one day per cell, so the cell at week `w`, row `d` holds the
date `start_monday + 7 * w + d`. -/
def buildCells (totals : List (Int × Int)) (palette : List String)
    (start stop : Int) : List Cell :=
  (List.range (weeksOf start stop).toNat).flatMap (fun w =>
    (List.range 7).map (fun d =>
      let date := start_monday start + 7 * (w : Int) + (d : Int)
      let s := lookupTotal totals date
      { date := date,
        x := 48 + (w : Int) * (10 + 2),
        y := 44 + (d : Int) * (10 + 2),
        fill := cellColor palette s,
        tooltip := xmlEscape (ordinalToIso date ++ " • " ++ durationStr s) }))

/-- One legend entry: swatch color and label. -/
structure LegendEntry where
  color : String
  label : String
deriving DecidableEq

/-- The legend loop of lines 185-196: `legend_colors = [ZERO_COLOR] +
palette`, `legend_labels = [ZERO_LABEL] + LEGEND_LABELS`, one swatch
plus one label per index of `legend_colors`. -/
def legendEntries (palette : List String) : List LegendEntry :=
  let colors := [ZERO_COLOR] ++ palette
  let labels := [ZERO_LABEL] ++ LEGEND_LABELS
  (List.range colors.length).map (fun i => ⟨colors.getD i "", labels.getD i ""⟩)

/-- `totals = {d["range"]["date"]: d["grand_total"]["total_seconds"]}`
(line 235).  Later dict entries overwrite earlier ones; `List.lookup`
takes the first hit, hence the `reverse`. -/
def totalsOf (data : List SummaryRec) : List (Int × Int) :=
  (data.map (fun r => (r.date, r.total_seconds))).reverse

/-- Observable outcome of one run of `main` (lines 219-242):
the process exit code (0 on success), how many network attempts were
made, and whether the output file was written. -/
structure MainRun where
  exitCode : Nat
  networkAttempts : Nat
  wroteOutput : Bool
deriving DecidableEq

/-- `main` (lines 219-242).  The key is validated first (exit 1 before
any network activity); then the period is resolved, the data fetched,
and any exception escaping `fetch_summaries` — transient-exhaustion,
non-transient `HTTPError`/`URLError`, `JSONDecodeError`, even the
`TypeError` from `raise None` — is caught by the blanket
`except Exception` of line 231, giving exit code 2. -/
def mainRun (apiKey : Option String) (attempt : Nat → Outcome) (maxRetries : Int)
    (paletteName : String) (today : Int) (year : Option Int) (lastDays : Int) : MainRun :=
  if validKey apiKey = false then
    { exitCode := 1, networkAttempts := 0, wroteOutput := false }
  else
    let _period := compute_period today year lastDays
    let _palette := build_palette6 paletteName
    let t := fetch_summaries apiKey attempt maxRetries
    match t.result with
    | .ok _ => { exitCode := 0, networkAttempts := t.attempts, wroteOutput := true }
    | _ => { exitCode := 2, networkAttempts := t.attempts, wroteOutput := false }

/-- A placeholder cell, used only as the default of `List.getD` in
concrete instantiations. -/
def cellDummy : Cell := ⟨0, 0, 0, "", ""⟩

/-- C1: for every non-negative second count, `bucket6` lands in exactly the
bucket given by the fixed thresholds 3600, 14400, 32400, 39600, 46800;
it is monotonic; 40000 seconds land in bucket 4 and are rendered with
the fifth palette color (index 4). -/
theorem bucket6_thresholds (s : Int) (h : 0 ≤ s) :
    (bucket6 s = 0 ↔ s < 3600)
  ∧ (bucket6 s = 1 ↔ 3600 ≤ s ∧ s < 14400)
  ∧ (bucket6 s = 2 ↔ 14400 ≤ s ∧ s < 32400)
  ∧ (bucket6 s = 3 ↔ 32400 ≤ s ∧ s < 39600)
  ∧ (bucket6 s = 4 ↔ 39600 ≤ s ∧ s < 46800)
  ∧ (bucket6 s = 5 ↔ 46800 ≤ s)
  ∧ (∀ t : Int, s ≤ t → bucket6 s ≤ bucket6 t)
  ∧ bucket6 40000 = 4
  ∧ (∀ name : String,
      cellColor (build_palette6 name) 40000 = (build_palette6 name).getD 4 "") := by
  refine ⟨?_, ?_, ?_, ?_, ?_, ?_, ?_, by decide, ?_⟩
  · simp only [bucket6]; split_ifs <;> constructor <;> intro h2 <;> first | exact h2.elim | omega
  · simp only [bucket6]; split_ifs <;> constructor <;> intro h2 <;> first | exact h2.elim | omega
  · simp only [bucket6]; split_ifs <;> constructor <;> intro h2 <;> first | exact h2.elim | omega
  · simp only [bucket6]; split_ifs <;> constructor <;> intro h2 <;> first | exact h2.elim | omega
  · simp only [bucket6]; split_ifs <;> constructor <;> intro h2 <;> first | exact h2.elim | omega
  · simp only [bucket6]; split_ifs <;> constructor <;> intro h2 <;> first | exact h2.elim | omega
  · intro t ht; simp only [bucket6]; split_ifs <;> omega
  · intro name
    have hb : bucket6 40000 = 4 := by decide
    rw [cellColor, if_neg (by norm_num), hb]

/-- C1 witness: the theorem applied at the concrete input 40000. -/
theorem bucket6_thresholds_witness :
    bucket6 40000 = 4
  ∧ cellColor (build_palette6 "green6") 40000 = (build_palette6 "green6").getD 4 "" :=
  ⟨(bucket6_thresholds 40000 (by decide)).2.2.2.2.2.2.2.1,
   (bucket6_thresholds 40000 (by decide)).2.2.2.2.2.2.2.2 "green6"⟩

/-- C3: in last-N-days mode the period ends today, spans exactly
`max 1 N` calendar days, equals `[today - (N - 1), today]` for `N ≥ 1`,
and collapses to `[today, today]` for `N < 1`. -/
theorem compute_period_last_days (today n : Int) :
    ((compute_period today none n).2 = today)
  ∧ ((compute_period today none n).2 - (compute_period today none n).1 + 1 = max 1 n)
  ∧ (1 ≤ n → (compute_period today none n).1 = today - (n - 1))
  ∧ (n < 1 → compute_period today none n = (today, today)) := by
  have e1 : (compute_period today none n).1 = today - (max 1 n - 1) := rfl
  have e2 : (compute_period today none n).2 = today := rfl
  refine ⟨e2, by rw [e1, e2]; omega, fun hn => by rw [e1]; omega, fun hn => ?_⟩
  have e3 : compute_period today none n = (today - (max 1 n - 1), today) := rfl
  rw [e3, Prod.mk.injEq]
  omega

/-- C3 witness: the theorem applied at today = 1000 with N = 30 and N = 0. -/
theorem compute_period_last_days_witness :
    (compute_period 1000 none 30).1 = 1000 - (30 - 1)
  ∧ compute_period 1000 none 0 = (1000, 1000) :=
  ⟨(compute_period_last_days 1000 30).2.2.1 (by decide),
   (compute_period_last_days 1000 0).2.2.2 (by decide)⟩

/-- C7: each of the five palette names yields exactly 6 colors, and the
legend has exactly 7 swatch-plus-label entries: the zero color and its
label first, then the 6 palette colors in order with the severity
labels. -/
theorem palette_legend_seven (name : String) (hname : name ∈ paletteNames) :
    (build_palette6 name).length = 6
  ∧ (legendEntries (build_palette6 name)).length = 7
  ∧ (legendEntries (build_palette6 name)).getD 0 ⟨"", ""⟩ = ⟨ZERO_COLOR, ZERO_LABEL⟩
  ∧ (∀ i : Nat, i < 6 →
      (legendEntries (build_palette6 name)).getD (i + 1) ⟨"", ""⟩ =
        ⟨(build_palette6 name).getD i "", LEGEND_LABELS.getD i ""⟩) := by
  simp only [paletteNames, List.mem_cons, List.not_mem_nil, or_false] at hname
  rcases hname with rfl | rfl | rfl | rfl | rfl <;> decide

/-- C7 witness: the theorem applied at the palette name "blue6". -/
theorem palette_legend_seven_witness :
    (build_palette6 "blue6").length = 6
  ∧ (legendEntries (build_palette6 "blue6")).getD 0 ⟨"", ""⟩ = ⟨ZERO_COLOR, ZERO_LABEL⟩
  ∧ (legendEntries (build_palette6 "blue6")).getD 3 ⟨"", ""⟩ = ⟨"#b8d5ff", "4–8h"⟩ :=
  ⟨(palette_legend_seven "blue6" (by decide)).1,
   (palette_legend_seven "blue6" (by decide)).2.2.1,
   (palette_legend_seven "blue6" (by decide)).2.2.2 2 (by decide)⟩

/-- Helper for C2: a cell of the grid carries the fill
`cellColor palette (lookupTotal totals date)` for its date. -/
theorem mem_buildCells (totals : List (Int × Int)) (palette : List String)
    (start stop : Int) (c : Cell) (hc : c ∈ buildCells totals palette start stop) :
    c.fill = cellColor palette (lookupTotal totals c.date) := by
  simp only [buildCells, List.mem_flatMap, List.mem_map, List.mem_range] at hc
  obtain ⟨w, hw, d, hd, rfl⟩ := hc
  rfl

/-- C2: a cell whose seconds are at most 0 — in particular any date
absent from the totals mapping, which reads as 0 — is filled with the
dedicated zero color and never with the bucket-0 palette color; a
cell with seconds strictly between 0 and 3600 is filled with the
bucket-0 palette color, which differs from the zero color. -/
theorem zero_color_vs_bucket0 (totals : List (Int × Int)) (name : String)
    (start stop : Int) (hname : name ∈ paletteNames) :
    (∀ d : Int, totals.lookup d = none → lookupTotal totals d = 0)
  ∧ ∀ c ∈ buildCells totals (build_palette6 name) start stop,
      (lookupTotal totals c.date ≤ 0 →
        c.fill = ZERO_COLOR ∧ c.fill ≠ (build_palette6 name).getD 0 "")
    ∧ (0 < lookupTotal totals c.date → lookupTotal totals c.date < 3600 →
        c.fill = (build_palette6 name).getD 0 "" ∧ c.fill ≠ ZERO_COLOR) := by
  have hne : ZERO_COLOR ≠ (build_palette6 name).getD 0 "" := by
    simp only [paletteNames, List.mem_cons, List.not_mem_nil, or_false] at hname
    rcases hname with rfl | rfl | rfl | rfl | rfl <;> decide
  constructor
  · intro d hd
    simp [lookupTotal, hd]
  · intro c hc
    have hfill := mem_buildCells totals (build_palette6 name) start stop c hc
    constructor
    · intro hle
      rw [hfill, cellColor, if_pos hle]
      exact ⟨rfl, hne⟩
    · intro h0 h3600
      rw [hfill, cellColor, if_neg (by omega)]
      have hb : bucket6 (lookupTotal totals c.date) = 0 := by
        rw [bucket6, if_pos h3600]
      rw [hb]
      exact ⟨rfl, fun habs => hne habs.symm⟩

/-- C2 witness: the theorem applied to a concrete grid in which day 8
has -3 seconds (zero color) and day 9 has 100 seconds (bucket 0). -/
theorem zero_color_vs_bucket0_witness :
    lookupTotal [((8:Int), -3), (9, 100)] 20 = 0
  ∧ ((buildCells [((8:Int), -3), (9, 100)] (build_palette6 "green6") 10 12).getD 0 cellDummy).fill
      = ZERO_COLOR
  ∧ ((buildCells [((8:Int), -3), (9, 100)] (build_palette6 "green6") 10 12).getD 1 cellDummy).fill
      = (build_palette6 "green6").getD 0 "" :=
  ⟨(zero_color_vs_bucket0 [((8:Int), -3), (9, 100)] "green6" 10 12 (by decide)).1 20 (by decide),
   (((zero_color_vs_bucket0 [((8:Int), -3), (9, 100)] "green6" 10 12 (by decide)).2
      _ (by decide)).1 (by decide)).1,
   (((zero_color_vs_bucket0 [((8:Int), -3), (9, 100)] "green6" 10 12 (by decide)).2
      _ (by decide)).2 (by decide) (by decide)).1⟩

/-- Helper for C6: the nested week-by-weekday loop enumerates the same
dates as a single pass over `7 * n` consecutive days. -/
theorem flatMapWeeks (sm : Int) (n : Nat) :
    (List.range n).flatMap
      (fun (w : Nat) => (List.range 7).map (fun (d : Nat) => sm + 7 * (w : Int) + (d : Int))) =
    (List.range (7 * n)).map (fun (i : Nat) => sm + (i : Int)) := by
  induction n with
  | zero => simp
  | succ n ih =>
    rw [List.range_succ, List.flatMap_append, ih,
      show 7 * (n + 1) = 7 * n + 7 by ring, List.range_add, List.map_append]
    simp only [List.flatMap_cons, List.flatMap_nil, List.append_nil, List.map_map]
    congr 1
    apply List.map_congr_left
    intro d hd
    simp only [Function.comp_apply]
    push_cast
    ring

/-- Helper for C6: the dates of the rendered cells, in order, are the
`7 * weeks` consecutive days starting at the Monday of the start. -/
theorem buildCells_dates (totals : List (Int × Int)) (palette : List String)
    (start stop : Int) :
    (buildCells totals palette start stop).map Cell.date =
    (List.range (7 * (weeksOf start stop).toNat)).map
      (fun (i : Nat) => start_monday start + (i : Int)) := by
  rw [buildCells, List.map_flatMap, ← flatMapWeeks]
  congr 1

/-- Helper for C6: with a non-empty period the Monday-to-Sunday
expansion spans a positive whole number of weeks. -/
theorem weeks_arith (start stop : Int) (h : start ≤ stop) :
    7 * weeksOf start stop = gridDays start stop ∧ 0 < weeksOf start stop := by
  simp only [weeksOf, gridDays, end_sunday, start_monday, weekday]
  omega

/-- C6: for a period with start at most end, the grid has exactly
`7 * weeks` cells with `weeks = (days + 6) / 7` the rounded-up week
count of the Monday-aligned expansion, the cell dates are pairwise
distinct, and they are exactly the dates from the preceding (or same)
Monday of the start through the following (or same) Sunday of the end. -/
theorem grid_covers_range (totals : List (Int × Int)) (palette : List String)
    (start stop : Int) (h : start ≤ stop) :
    (buildCells totals palette start stop).length = 7 * (weeksOf start stop).toNat
  ∧ weeksOf start stop = (gridDays start stop + 6) / 7
  ∧ 7 * weeksOf start stop = gridDays start stop
  ∧ ((buildCells totals palette start stop).map Cell.date).Nodup
  ∧ (∀ d : Int, d ∈ (buildCells totals palette start stop).map Cell.date ↔
      start_monday start ≤ d ∧ d ≤ end_sunday stop) := by
  obtain ⟨hmul, hpos⟩ := weeks_arith start stop h
  have hlen : (buildCells totals palette start stop).length
      = 7 * (weeksOf start stop).toNat := by
    have := congrArg List.length (buildCells_dates totals palette start stop)
    simpa using this
  have hcast : ((7 * (weeksOf start stop).toNat : Nat) : Int) = gridDays start stop := by
    push_cast
    rw [Int.toNat_of_nonneg (by omega)]
    exact hmul
  have hsunday : end_sunday stop = start_monday start + gridDays start stop - 1 := by
    simp only [gridDays]
    ring
  refine ⟨hlen, rfl, hmul, ?_, ?_⟩
  · rw [buildCells_dates]
    refine List.Nodup.map ?_ (List.nodup_range _)
    intro a b hab
    have h2 : start_monday start + (a : Int) = start_monday start + (b : Int) := hab
    omega
  · intro d
    rw [buildCells_dates]
    simp only [List.mem_map, List.mem_range]
    constructor
    · rintro ⟨i, hi, rfl⟩
      constructor
      · omega
      · have : (i : Int) < gridDays start stop := by
          calc (i : Int) < ((7 * (weeksOf start stop).toNat : Nat) : Int) := by
                exact_mod_cast hi
            _ = gridDays start stop := hcast
        omega
    · rintro ⟨h1, h2⟩
      refine ⟨(d - start_monday start).toNat, ?_, ?_⟩
      · have : d - start_monday start < gridDays start stop := by omega
        omega
      · omega

/-- C6 witness: the theorem applied to the concrete period [10, 12],
whose expansion is [8, 14]. -/
theorem grid_covers_range_witness :
    (buildCells [] [] 10 12).length = 7 * (weeksOf 10 12).toNat
  ∧ ((8:Int) ∈ (buildCells [] [] 10 12).map Cell.date) :=
  ⟨(grid_covers_range [] [] 10 12 (by decide)).1,
   ((grid_covers_range [] [] 10 12 (by decide)).2.2.2.2 8).mpr (by decide)⟩

/-- Helper for C8: a grid cell carries the tooltip built from its ISO
date and the `HhMM` duration string. -/
theorem mem_buildCells_tooltip (totals : List (Int × Int)) (palette : List String)
    (start stop : Int) (c : Cell) (hc : c ∈ buildCells totals palette start stop) :
    c.tooltip = xmlEscape (ordinalToIso c.date ++ " • " ++
      durationStr (lookupTotal totals c.date)) := by
  simp only [buildCells, List.mem_flatMap, List.mem_map, List.mem_range] at hc
  obtain ⟨w, hw, d, hd, rfl⟩ := hc
  rfl

/-- Helper for C8: for minute values 0-59 the Python `{mins:02d}` field
has exactly two characters and its last character is a digit, not m. -/
theorem pad2i_nat_facts :
    ∀ k : Nat, k < 60 →
      (pad2i (k : Int)).length = 2 ∧ (pad2i (k : Int)).data.getLast? ≠ some 'm' := by
  decide

/-- C8 (amended): every grid cell tooltip is the XML-escaped ISO date,
a separator, and the duration rendered as hours, the letter h, and a
two-digit minute field; the duration does not end with the letter m. -/
theorem cell_tooltip_hhmm (totals : List (Int × Int)) (palette : List String)
    (start stop : Int) :
    ∀ c ∈ buildCells totals palette start stop,
      c.tooltip = xmlEscape (ordinalToIso c.date ++ " • " ++
        durationStr (lookupTotal totals c.date))
    ∧ durationStr (lookupTotal totals c.date)
        = toString (lookupTotal totals c.date / 3600) ++ "h"
          ++ pad2i (lookupTotal totals c.date % 3600 / 60)
    ∧ 0 ≤ lookupTotal totals c.date % 3600 / 60
    ∧ lookupTotal totals c.date % 3600 / 60 < 60
    ∧ (pad2i (lookupTotal totals c.date % 3600 / 60)).length = 2
    ∧ (durationStr (lookupTotal totals c.date)).data.getLast? ≠ some 'm' := by
  intro c hc
  set s := lookupTotal totals c.date with hs
  have hm0 : 0 ≤ s % 3600 / 60 := by omega
  have hm60 : s % 3600 / 60 < 60 := by omega
  have hcast : (((s % 3600 / 60).toNat : Nat) : Int) = s % 3600 / 60 :=
    Int.toNat_of_nonneg hm0
  have hfacts := pad2i_nat_facts (s % 3600 / 60).toNat (by omega)
  rw [hcast] at hfacts
  refine ⟨mem_buildCells_tooltip totals palette start stop c hc, rfl, hm0, hm60,
    hfacts.1, ?_⟩
  obtain ⟨x, hx⟩ : ∃ x, (pad2i (s % 3600 / 60)).data.getLast? = some x := by
    rcases hgl : (pad2i (s % 3600 / 60)).data.getLast? with _ | x
    · exfalso
      rw [List.getLast?_eq_none_iff] at hgl
      have h2 := hfacts.1
      rw [show (pad2i (s % 3600 / 60)).length
          = (pad2i (s % 3600 / 60)).data.length from rfl, hgl] at h2
      simp at h2
    · exact ⟨x, rfl⟩
  rw [durationStr, String.data_append, List.getLast?_append, hx]
  intro habs
  apply hfacts.2
  rw [hx]
  simpa using habs

/-- C8 witness: the amended theorem applied to a concrete grid with
40000 seconds recorded on day 8. -/
theorem cell_tooltip_hhmm_witness :
    (durationStr (lookupTotal [((8:Int), 40000)]
      ((buildCells [((8:Int), 40000)] (build_palette6 "green6") 10 12).getD 0
        cellDummy).date)).data.getLast? ≠ some 'm' :=
  (cell_tooltip_hhmm [((8:Int), 40000)] (build_palette6 "green6") 10 12 _
    (by decide)).2.2.2.2.2

/-- C8 counterexample: at a concrete grid with 40000 seconds on day 8
the rendered tooltip is "0001-01-08 • 11h06": the duration shows hours,
the letter h and two minute digits, and its last character is a digit,
not the letter m, refuting the claimed trailing-m HhMMm format. -/
theorem cell_tooltip_no_trailing_m :
    ((buildCells [((8:Int), 40000)] (build_palette6 "green6") 10 12).getD 0
      cellDummy).tooltip = "0001-01-08 • 11h06"
  ∧ ("0001-01-08 • 11h06").data.getLast? ≠ some 'm' :=
  ⟨by decide, by decide⟩

/-- Helper for C4: after `k` consecutive transient failures starting at
attempt `i`, the loop has made `k` more attempts, slept `2 * attempt`
seconds after each of them, and `last_err` holds the error of the most
recent transient attempt. -/
theorem fetchGo_skip (attempt : Nat → Outcome) :
    ∀ (k i rem : Nat) (lastE : Option HErr),
      (∀ j : Nat, j < k → ∃ e, attempt (i + j) = .httpErr e ∧ isTransient e = true) →
      k ≤ rem →
      ∃ lastE2 : Option HErr,
        fetchGo attempt i rem lastE =
          { result := (fetchGo attempt (i + k) (rem - k) lastE2).result,
            attempts := (fetchGo attempt (i + k) (rem - k) lastE2).attempts + k,
            sleeps := (List.range k).map (fun j => 2 * (i + j)) ++
              (fetchGo attempt (i + k) (rem - k) lastE2).sleeps }
      ∧ (k = 0 → lastE2 = lastE)
      ∧ (0 < k → ∃ e, attempt (i + (k - 1)) = .httpErr e ∧ isTransient e = true
          ∧ lastE2 = some e) := by
  intro k
  induction k with
  | zero =>
    intro i rem lastE hTr hle
    refine ⟨lastE, ?_, fun _ => rfl, fun h0 => absurd h0 (by omega)⟩
    simp
  | succ k ih =>
    intro i rem lastE hTr hle
    obtain ⟨e0, he0, htr0⟩ := hTr 0 (by omega)
    rw [Nat.add_zero] at he0
    obtain ⟨rem2, rfl⟩ : ∃ r2, rem = r2 + 1 := ⟨rem - 1, by omega⟩
    obtain ⟨lastE2, heq, hzero, hpos⟩ :=
      ih (i + 1) rem2 (some e0)
        (fun j hj => by
          obtain ⟨e, he, htr⟩ := hTr (j + 1) (by omega)
          refine ⟨e, ?_, htr⟩
          rw [show i + 1 + j = i + (j + 1) by omega]
          exact he)
        (by omega)
    have hstep : fetchGo attempt i (rem2 + 1) lastE =
        { result := (fetchGo attempt (i + 1) rem2 (some e0)).result,
          attempts := (fetchGo attempt (i + 1) rem2 (some e0)).attempts + 1,
          sleeps := 2 * i :: (fetchGo attempt (i + 1) rem2 (some e0)).sleeps } := by
      simp only [fetchGo, he0, htr0, if_true]
    refine ⟨lastE2, ?_, fun hk => absurd hk (by omega), ?_⟩
    · rw [hstep, heq]
      rw [show i + (k + 1) = i + 1 + k by omega,
        show rem2 + 1 - (k + 1) = rem2 - k by omega]
      simp only [FetchTrace.mk.injEq]
      refine ⟨trivial, by omega, ?_⟩
      rw [List.range_succ_eq_map, List.map_cons, List.map_map, Nat.add_zero,
        List.cons_append]
      congr 1
      congr 1
      apply List.map_congr_left
      intro a ha
      simp only [Function.comp_apply]
      omega
    · intro _
      rcases Nat.eq_zero_or_pos k with hk0 | hkpos
      · subst hk0
        refine ⟨e0, ?_, htr0, hzero rfl⟩
        rw [show i + (0 + 1 - 1) = i by omega]
        exact he0
      · obtain ⟨e, he, htr, hl2⟩ := hpos hkpos
        refine ⟨e, ?_, htr, hl2⟩
        rw [show i + (k + 1 - 1) = i + 1 + (k - 1) by omega]
        exact he

/-- C4: with a well-formed key and a positive retry budget: if the
first k attempts fail transiently (HTTP 429/500/502/503/504 or a
Remote-end-closed error) and attempt k+1 within the budget succeeds,
the fetch returns the parsed data array after exactly k+1 attempts,
having slept 2*i seconds after each failed attempt i; if all
max_retries attempts fail transiently it raises the last failure after
exactly max_retries attempts; a non-transient error is raised at once
with no further attempts. -/
theorem fetch_retry_policy (apiKey : Option String) (attempt : Nat → Outcome)
    (maxRetries : Int) (hkey : validKey apiKey = true) (hmr : 1 ≤ maxRetries) :
    (∀ (k : Nat) (d : List SummaryRec),
      (∀ j : Nat, 1 ≤ j → j ≤ k → ∃ e, attempt j = .httpErr e ∧ isTransient e = true) →
      attempt (k + 1) = .ok d → (k : Int) + 1 ≤ maxRetries →
      fetch_summaries apiKey attempt maxRetries =
        { result := .ok d, attempts := k + 1,
          sleeps := (List.range k).map (fun j => 2 * (j + 1)) })
  ∧ (∀ n : Nat, (n : Int) = maxRetries →
      (∀ j : Nat, 1 ≤ j → j ≤ n → ∃ e, attempt j = .httpErr e ∧ isTransient e = true) →
      ∃ e, attempt n = .httpErr e ∧
        fetch_summaries apiKey attempt maxRetries =
          { result := .raisedHttp e, attempts := n,
            sleeps := (List.range n).map (fun j => 2 * (j + 1)) })
  ∧ (∀ (k : Nat) (e : HErr),
      (∀ j : Nat, 1 ≤ j → j ≤ k → ∃ e2, attempt j = .httpErr e2 ∧ isTransient e2 = true) →
      attempt (k + 1) = .httpErr e → isTransient e = false → (k : Int) + 1 ≤ maxRetries →
      fetch_summaries apiKey attempt maxRetries =
        { result := .raisedHttp e, attempts := k + 1,
          sleeps := (List.range k).map (fun j => 2 * (j + 1)) }) := by
  have hfs : fetch_summaries apiKey attempt maxRetries
      = fetchGo attempt 1 maxRetries.toNat none := by
    rw [fetch_summaries, if_pos hkey]
  refine ⟨?_, ?_, ?_⟩
  · intro k d hTr hok hbound
    obtain ⟨lastE2, heq, hz, hp⟩ := fetchGo_skip attempt k 1 maxRetries.toNat none
      (fun j hj => by
        obtain ⟨e, he, htr⟩ := hTr (j + 1) (by omega) (by omega)
        exact ⟨e, by rw [show 1 + j = j + 1 by omega]; exact he, htr⟩)
      (by omega)
    obtain ⟨r2, hr2⟩ : ∃ r2, maxRetries.toNat - k = r2 + 1 :=
      ⟨maxRetries.toNat - k - 1, by omega⟩
    rw [hfs, heq, hr2, show 1 + k = k + 1 by omega]
    simp only [fetchGo, hok]
    simp only [FetchTrace.mk.injEq, List.append_nil]
    refine ⟨trivial, by omega, ?_⟩
    apply List.map_congr_left
    intro a ha
    omega
  · intro n hn hTr
    obtain ⟨lastE2, heq, hz, hp⟩ := fetchGo_skip attempt n 1 maxRetries.toNat none
      (fun j hj => by
        obtain ⟨e, he, htr⟩ := hTr (j + 1) (by omega) (by omega)
        exact ⟨e, by rw [show 1 + j = j + 1 by omega]; exact he, htr⟩)
      (by omega)
    obtain ⟨e, he, htr, hl2⟩ := hp (by omega)
    rw [show 1 + (n - 1) = n by omega] at he
    refine ⟨e, he, ?_⟩
    rw [hfs, heq, hl2, show maxRetries.toNat - n = 0 by omega]
    simp only [fetchGo]
    simp only [FetchTrace.mk.injEq, List.append_nil]
    refine ⟨trivial, by omega, ?_⟩
    apply List.map_congr_left
    intro a ha
    omega
  · intro k e hTr he htr hbound
    obtain ⟨lastE2, heq, hz, hp⟩ := fetchGo_skip attempt k 1 maxRetries.toNat none
      (fun j hj => by
        obtain ⟨e2, he2, htr2⟩ := hTr (j + 1) (by omega) (by omega)
        exact ⟨e2, by rw [show 1 + j = j + 1 by omega]; exact he2, htr2⟩)
      (by omega)
    obtain ⟨r2, hr2⟩ : ∃ r2, maxRetries.toNat - k = r2 + 1 :=
      ⟨maxRetries.toNat - k - 1, by omega⟩
    rw [hfs, heq, hr2, show 1 + k = k + 1 by omega]
    simp only [fetchGo, he, htr, Bool.false_eq_true, if_false]
    simp only [FetchTrace.mk.injEq, List.append_nil]
    refine ⟨trivial, by omega, ?_⟩
    apply List.map_congr_left
    intro a ha
    omega

/-- C4 witness: one 429 failure followed by a success, with
max_retries = 5: the fetch returns the payload after 2 attempts,
having slept 2 seconds after the failed first attempt. -/
theorem fetch_retry_policy_witness :
    fetch_summaries (some "waka_k")
      (fun j => if j = 1 then Outcome.httpErr ⟨some 429, "HTTP Error 429"⟩
                else Outcome.ok [⟨8, 3600⟩]) 5 =
      { result := .ok [⟨8, 3600⟩], attempts := 2, sleeps := [2] } := by
  have h := (fetch_retry_policy (some "waka_k")
      (fun j => if j = 1 then Outcome.httpErr ⟨some 429, "HTTP Error 429"⟩
                else Outcome.ok [⟨8, 3600⟩]) 5 (by decide) (by decide)).1
      1 [⟨8, 3600⟩]
      (fun j h1 h2 => by
        have hj : j = 1 := by omega
        subst hj
        exact ⟨⟨some 429, "HTTP Error 429"⟩, by decide, by decide⟩)
      (by decide) (by decide)
  simpa using h

/-- C5: with an absent or malformed API key the program exits with
code 1 having made no network attempt, and `fetch_summaries` itself
raises its key error before any request. -/
theorem invalid_key_fails_fast (apiKey : Option String) (attempt : Nat → Outcome)
    (maxRetries : Int) (paletteName : String) (today : Int) (year : Option Int)
    (lastDays : Int) (hkey : validKey apiKey = false) :
    mainRun apiKey attempt maxRetries paletteName today year lastDays =
      { exitCode := 1, networkAttempts := 0, wroteOutput := false }
  ∧ fetch_summaries apiKey attempt maxRetries =
      { result := .raisedKeyError, attempts := 0, sleeps := [] } := by
  constructor
  · rw [mainRun, if_pos hkey]
  · rw [fetch_summaries, if_neg (by rw [hkey]; exact Bool.false_ne_true)]

/-- C5 witness: the theorem applied with an absent key. -/
theorem invalid_key_fails_fast_witness :
    mainRun none (fun _ => Outcome.ok []) 5 "green6" 1000 none 30 =
      { exitCode := 1, networkAttempts := 0, wroteOutput := false }
  ∧ fetch_summaries none (fun _ => Outcome.ok []) 5 =
      { result := .raisedKeyError, attempts := 0, sleeps := [] } :=
  invalid_key_fails_fast none (fun _ => Outcome.ok []) 5 "green6" 1000 none 30 (by decide)

/-- C9 (amended): a malformed JSON body is not retried and propagates
out of `fetch_summaries` after one attempt, but `main` catches it with
its blanket exception handler, so the process exits with code 2 like
any other fetch failure. -/
theorem json_error_caught_by_main (apiKey : Option String) (attempt : Nat → Outcome)
    (maxRetries : Int) (paletteName : String) (today : Int) (year : Option Int)
    (lastDays : Int) (msg : String) (hkey : validKey apiKey = true)
    (hmr : 1 ≤ maxRetries) (hjson : attempt 1 = .jsonErr msg) :
    fetch_summaries apiKey attempt maxRetries =
      { result := .raisedJson msg, attempts := 1, sleeps := [] }
  ∧ (mainRun apiKey attempt maxRetries paletteName today year lastDays).exitCode = 2 := by
  have hfetch : fetch_summaries apiKey attempt maxRetries =
      { result := .raisedJson msg, attempts := 1, sleeps := [] } := by
    rw [fetch_summaries, if_pos hkey]
    obtain ⟨r2, hr2⟩ : ∃ r2, maxRetries.toNat = r2 + 1 := ⟨maxRetries.toNat - 1, by omega⟩
    rw [hr2]
    simp only [fetchGo, hjson]
  refine ⟨hfetch, ?_⟩
  rw [mainRun, if_neg (by rw [hkey]; exact fun habs => Bool.false_ne_true habs.symm)]
  simp only [hfetch]

/-- C9 witness: the amended theorem applied to a concrete run whose
first attempt yields a malformed body. -/
theorem json_error_caught_by_main_witness :
    fetch_summaries (some "waka_k") (fun _ => Outcome.jsonErr "Expecting value") 5 =
      { result := .raisedJson "Expecting value", attempts := 1, sleeps := [] }
  ∧ (mainRun (some "waka_k") (fun _ => Outcome.jsonErr "Expecting value") 5
      "green6" 1000 none 30).exitCode = 2 :=
  json_error_caught_by_main (some "waka_k") (fun _ => Outcome.jsonErr "Expecting value")
    5 "green6" 1000 none 30 "Expecting value" (by decide) (by decide) (by decide)

/-- C9 counterexample: with a valid key and a malformed JSON body on
the first attempt, the process exits with code 2 — the orchestrator
catches the JSON error and reports it as a fetch failure — refuting
the claim that it escapes the exit-code-2 handling. -/
theorem json_error_exit_code_two :
    (mainRun (some "waka_k") (fun _ => Outcome.jsonErr "Expecting value") 5
      "green6" 1000 none 30).exitCode = 2 := by decide

/-- Helper for C10: once at least one loop iteration runs, or once
`last_err` is set, the final raise never sees `last_err = None`. -/
theorem fetchGo_not_noneTypeError (attempt : Nat → Outcome) :
    ∀ (rem i : Nat) (lastE : Option HErr), 0 < rem ∨ lastE.isSome = true →
      (fetchGo attempt i rem lastE).result ≠ .raisedNoneTypeError := by
  intro rem
  induction rem with
  | zero =>
    intro i lastE h
    rcases h with h | h
    · omega
    · rcases lastE with _ | e
      · simp at h
      · simp [fetchGo]
  | succ rem ih =>
    intro i lastE h
    rcases hA : attempt i with d | m | e
    · simp [fetchGo, hA]
    · simp [fetchGo, hA]
    · rcases htr : isTransient e with _ | _
      · simp [fetchGo, hA, htr]
      · simp only [fetchGo, hA, htr, if_true]
        exact ih (i + 1) (some e) (Or.inr rfl)

/-- C10: with a well-formed key and max_retries at most 0 the loop body
never runs, no network attempt is made, and the final `raise last_err`
raises `None`, a TypeError, carrying no underlying network failure;
with max_retries at least 1 the final raise never sees `None`. -/
theorem zero_budget_raises_none (apiKey : Option String) (attempt : Nat → Outcome)
    (maxRetries : Int) (hkey : validKey apiKey = true) :
    (maxRetries ≤ 0 →
      fetch_summaries apiKey attempt maxRetries =
        { result := .raisedNoneTypeError, attempts := 0, sleeps := [] })
  ∧ (1 ≤ maxRetries →
      (fetch_summaries apiKey attempt maxRetries).result ≠ .raisedNoneTypeError) := by
  constructor
  · intro hle
    rw [fetch_summaries, if_pos hkey, show maxRetries.toNat = 0 by omega]
    rfl
  · intro h1
    rw [fetch_summaries, if_pos hkey]
    exact fetchGo_not_noneTypeError attempt maxRetries.toNat 1 none (Or.inl (by omega))

/-- C10 witness: the theorem applied with max_retries = 0 and a valid
key: the fetch makes zero attempts and ends in the TypeError raise. -/
theorem zero_budget_raises_none_witness :
    fetch_summaries (some "waka_k") (fun _ => Outcome.ok []) 0 =
      { result := .raisedNoneTypeError, attempts := 0, sleeps := [] } :=
  (zero_budget_raises_none (some "waka_k") (fun _ => Outcome.ok []) 0 (by decide)).1
    (by decide)
